import Mathlib

/-!
Verification of the SeedDream FAL MCP server request handlers against the
repository's natural-language specification.

The handlers live in src/index.ts.  They are shallowly embedded here:

* JavaScript runtime values that can appear in a tool-call argument payload
  are modelled by `JVal` (numbers as rationals; the claims never exercise
  float-specific behaviour such as NaN).
* The upstream `fal.subscribe` call is modelled by an oracle parameter: the
  n-th upstream call issued by a handler returns whatever the oracle returns
  for index n and the payload sent.  Each handler additionally returns the
  list of payloads it sent upstream, in the order the calls were issued, so
  that "before any network call" is expressible as an empty call list.
* A thrown JS `Error` is modelled as `Except.error` carrying the message;
  the `try`/`catch` at each handler boundary is `wrapResult`.
* The fixed text templates of the success reports are modelled structurally
  by `Content`, carrying exactly the values the source interpolates into the
  template slots; error-message strings are kept verbatim.
-/

namespace Seedream

/-- JavaScript values occurring in tool-call argument payloads. -/
inductive JVal : Type where
  | undefined : JVal
  | null : JVal
  | bool : Bool → JVal
  | num : Rat → JVal
  | str : String → JVal
  | arr : List JVal → JVal
  | obj : List (String × JVal) → JVal

/-- A JavaScript object, as an association list of fields. -/
abbrev JObj := List (String × JVal)

/-- JavaScript truthiness: undefined, null, false, 0 and the empty string
are falsy, everything else modelled here is truthy. -/
def truthy : JVal → Bool
  | JVal.undefined => false
  | JVal.null => false
  | JVal.bool b => b
  | JVal.num q => if q = 0 then false else true
  | JVal.str s => if s = "" then false else true
  | JVal.arr _ => true
  | JVal.obj _ => true

/-- Property access `o.k`: the field value if present, else undefined. -/
def getField (o : JObj) (k : String) : JVal :=
  match List.lookup k o with
  | some v => v
  | none => JVal.undefined

/-- JavaScript `v || d`. -/
def jsOr (v d : JVal) : JVal := if truthy v then v else d

/-- A destructuring default `{ k = d }`: replaces only `undefined`. -/
def jsDefault (v d : JVal) : JVal :=
  match v with
  | JVal.undefined => d
  | _ => v

/-- src/index.ts lines 39-41: the valid aspect ratios for SeedDream 3.0. -/
def VALID_ASPECT_RATIOS : List String :=
  ["1:1", "3:4", "4:3", "16:9", "9:16", "2:3", "3:2", "21:9"]

/-- `VALID_ASPECT_RATIOS.includes(v)`: strict equality means a non-string
value is never a member. -/
def validRatioVal : JVal → Bool
  | JVal.str s => VALID_ASPECT_RATIOS.contains s
  | _ => false

/-- The message thrown for an invalid aspect ratio (lines 180 and 271). -/
def invalidRatioMsg : String :=
  "Invalid aspect ratio. Must be one of: " ++ String.intercalate ", " VALID_ASPECT_RATIOS

/-- One image of the upstream response (src/index.ts lines 59-66). -/
structure ImageInfo : Type where
  url : String
  width : Option Nat
  height : Option Nat

/-- The upstream response shape (src/index.ts lines 59-66).  The `images`
field is typed as a list, so the source's `!response.images` guard is
subsumed by the empty-list check. -/
structure SeedDreamResponse : Type where
  images : List ImageInfo
  seed : Int

/-- A thrown JS Error, reduced to its message. -/
structure JsError : Type where
  message : String

/-- The payload sent to `fal.subscribe` (src/index.ts lines 184-193 and
282-287).  Field name mapping: `arv` is `aspect_ratio`, `gsv` is
`guidance_scale`, `numImages` is `num_images`.  The single-image handler
forwards raw argument values, so the fields are `JVal`. -/
structure FalPayload : Type where
  prompt : JVal
  arv : JVal
  gsv : JVal
  numImages : JVal
  seed : Option JVal

/-- The environment of upstream calls: the n-th call issued by a handler,
with its payload, either returns a response or rejects with a message. -/
abbrev Oracle := Nat → FalPayload → Except String SeedDreamResponse

/-- The text content returned by a handler, modelled structurally: each
constructor carries exactly the values the source interpolates into its
fixed text template. -/
inductive Content : Type where
  | singleReport (prompt : String) (arUsed gsUsed : JVal) (seedUsed : Int)
      (images : List ImageInfo) : Content
  | batchReport (arUsed gsUsed : JVal) (totalPrompts succCount failCount : Nat)
      (successful : List (JVal × SeedDreamResponse))
      (failed : List (JVal × String)) : Content
  | errorText (text : String) : Content

/-- The MCP tool result: one content block plus the error indicator.  The
source's success returns omit `isError`, which a caller reads as falsy;
that is modelled as `isError := false`. -/
structure ToolResult : Type where
  content : Content
  isError : Bool

/-- The payload built by `generate_image` (src/index.ts lines 184-193):
`||`-defaults for aspect ratio, guidance scale and image count, and the
seed included only when not undefined. -/
def mkPayload (o : JObj) (s : String) : FalPayload :=
  { prompt := JVal.str s
  , arv := jsOr (getField o "aspect_ratio") (JVal.str "1:1")
  , gsv := jsOr (getField o "guidance_scale") (JVal.num 2.5)
  , numImages := jsOr (getField o "num_images") (JVal.num 1)
  , seed :=
      match getField o "seed" with
      | JVal.undefined => none
      | v => some v }

/-- The body of the `generate_image` case (src/index.ts lines 170-237),
before the surrounding catch.  `args.getD []` is `request.params.arguments
|| {}`.  Returns the payloads sent upstream and either the success content
or the thrown error. -/
def generateImageBody (oracle : Oracle) (args : Option JObj) :
    List FalPayload × Except JsError Content :=
  match getField (args.getD []) "prompt" with
  | JVal.str s =>
    if s = "" then ([], Except.error ⟨"Prompt is required and must be a string"⟩)
    else if truthy (getField (args.getD []) "aspect_ratio")
        && !validRatioVal (getField (args.getD []) "aspect_ratio") then
      ([], Except.error ⟨invalidRatioMsg⟩)
    else
      match oracle 0 (mkPayload (args.getD []) s) with
      | Except.error e => ([mkPayload (args.getD []) s], Except.error ⟨e⟩)
      | Except.ok resp =>
        if resp.images.length = 0 then
          ([mkPayload (args.getD []) s], Except.error ⟨"No images were generated"⟩)
        else
          ([mkPayload (args.getD []) s],
           Except.ok (Content.singleReport s (mkPayload (args.getD []) s).arv
             (mkPayload (args.getD []) s).gsv resp.seed resp.images))
  | _ => ([], Except.error ⟨"Prompt is required and must be a string"⟩)

/-- The per-prompt payload of the batch fan-out (src/index.ts lines
282-287): the raw element as prompt, the shared ratio and guidance values,
one image, no seed. -/
def batchPayload (ar gs : JVal) (p : JVal) : FalPayload :=
  { prompt := p, arv := ar, gsv := gs, numImages := JVal.num 1, seed := none }

/-- `Promise.allSettled` over the fan-out (src/index.ts lines 277-296):
the i-th element of the result follows the i-th prompt, regardless of
completion order; each entry pairs the captured prompt with its outcome. -/
def settleBatch (oracle : Oracle) : Nat → List FalPayload →
    List (JVal × Except String SeedDreamResponse)
  | _, [] => []
  | i, pl :: rest => (pl.prompt, oracle i pl) :: settleBatch oracle (i + 1) rest

/-- The partition loop (src/index.ts lines 299-311): fulfilled entries are
pushed onto `successful`, rejected ones onto `failed`, in result order. -/
def partitionSettled :
    List (JVal × Except String SeedDreamResponse) →
      List (JVal × SeedDreamResponse) × List (JVal × String)
  | [] => ([], [])
  | (p, Except.ok v) :: rest =>
      ((p, v) :: (partitionSettled rest).1, (partitionSettled rest).2)
  | (p, Except.error e) :: rest =>
      ((partitionSettled rest).1, (p, e) :: (partitionSettled rest).2)

/-- Whether a settled outcome was a rejection. -/
def exceptFailed : Except String SeedDreamResponse → Bool
  | Except.error _ => true
  | Except.ok _ => false

/-- The post-validation tail of the batch handler: fan out, settle,
partition, and build the aggregate report whose header carries the total
prompt count and the two partition lengths (src/index.ts lines 277-351). -/
def batchRun (oracle : Oracle) (ar gs : JVal) (ps : List JVal) :
    List FalPayload × Except JsError Content :=
  (ps.map (batchPayload ar gs),
   Except.ok (Content.batchReport ar gs ps.length
     (partitionSettled (settleBatch oracle 0 (ps.map (batchPayload ar gs)))).1.length
     (partitionSettled (settleBatch oracle 0 (ps.map (batchPayload ar gs)))).2.length
     (partitionSettled (settleBatch oracle 0 (ps.map (batchPayload ar gs)))).1
     (partitionSettled (settleBatch oracle 0 (ps.map (batchPayload ar gs)))).2))

/-- The body of the `generate_image_batch` case (src/index.ts lines
253-351), before the surrounding catch.  A missing argument object makes
the destructuring itself throw.  Validation order follows the source:
prompts array shape, then count bound, then aspect ratio. -/
def generateImageBatchBody (oracle : Oracle) :
    Option JObj → List FalPayload × Except JsError Content
  | none =>
      ([], Except.error
        ⟨"Cannot destructure property 'prompts' of 'request.params.arguments' as it is undefined."⟩)
  | some o =>
    match getField o "prompts" with
    | JVal.arr ps =>
      if ps.length = 0 then
        ([], Except.error ⟨"Prompts array is required and must not be empty"⟩)
      else if 5 < ps.length then
        ([], Except.error ⟨"Maximum 5 prompts allowed per batch request"⟩)
      else if !validRatioVal (jsDefault (getField o "aspect_ratio") (JVal.str "1:1")) then
        ([], Except.error ⟨invalidRatioMsg⟩)
      else
        batchRun oracle (jsDefault (getField o "aspect_ratio") (JVal.str "1:1"))
          (jsDefault (getField o "guidance_scale") (JVal.num 2.5)) ps
    | _ => ([], Except.error ⟨"Prompts array is required and must not be empty"⟩)

/-- The catch block at a handler boundary (src/index.ts lines 239-250 and
353-364): a thrown error becomes a normal result with the error flag set
and the context text prepended to the message. -/
def wrapResult (ctx : String) (r : List FalPayload × Except JsError Content) :
    ToolResult × List FalPayload :=
  match r.2 with
  | Except.ok c => ({ content := c, isError := false }, r.1)
  | Except.error e => ({ content := Content.errorText (ctx ++ e.message), isError := true }, r.1)

/-- The CallTool request handler (src/index.ts lines 168-370): dispatch on
the tool name, each known case wrapped in its own try/catch; the default
case throws without a catch. -/
def callTool (oracle : Oracle) (name : String) (args : Option JObj) :
    Except JsError (ToolResult × List FalPayload) :=
  if name = "generate_image" then
    Except.ok (wrapResult "Error generating image: " (generateImageBody oracle args))
  else if name = "generate_image_batch" then
    Except.ok (wrapResult "Error in batch generation: " (generateImageBatchBody oracle args))
  else
    Except.error ⟨"Unknown tool: " ++ name⟩

/-- What the process does at startup as a function of the FAL_KEY
environment value (src/index.ts lines 27-31): `!FAL_KEY` is true for an
unset or empty variable, and the process then calls `process.exit(1)`. -/
inductive StartupOutcome : Type where
  | exited (code : Nat) : StartupOutcome
  | running : StartupOutcome

/-- src/index.ts lines 27-31: the startup credential check. -/
def startupCheck : Option String → StartupOutcome
  | none => StartupOutcome.exited 1
  | some k => if k = "" then StartupOutcome.exited 1 else StartupOutcome.running

/-- Modelled from the spec: characters kept by the filename generator's
strip step, the class written `[a-z0-9\s]` in spec section 4.2.  The
generator itself is part of the v4 build that is not present under src/. -/
def keepChar (c : Char) : Bool :=
  (('a' ≤ c) && (c ≤ 'z')) || (('0' ≤ c) && (c ≤ '9')) || c.isWhitespace

/-- Modelled from the spec: collapse each maximal whitespace run to a
single underscore (spec section 4.2).  A whitespace character is dropped
when the next character is also whitespace, so only the last character of
a run becomes the underscore. -/
def collapseWs : List Char → List Char
  | [] => []
  | c :: cs =>
    if c.isWhitespace then
      match cs with
      | [] => ['_']
      | d :: _ => if d.isWhitespace then collapseWs cs else '_' :: collapseWs cs
    else c :: collapseWs cs

/-- Modelled from the spec: lower-case (character-wise, as the runtime's
string lower-casing does), strip characters outside `[a-z0-9\s]`, collapse
whitespace runs to underscores, truncate to 50 characters (spec section
4.2). -/
def sanitizePrompt (p : String) : String :=
  String.mk (List.take 50 (collapseWs (List.filter keepChar (p.data.map Char.toLower))))

/-- Modelled from the spec: the filename generator of spec section 4.2,
which is not present under src/ (it belongs to the v4 build).  The current
instant is passed in as the already-formatted timestamp text. -/
def makeFilename (prompt : String) (idx : Nat) (seed : Int) (timestamp : String) : String :=
  sanitizePrompt prompt ++ "_" ++ toString seed ++ "_" ++ toString idx ++ "_" ++ timestamp ++ ".png"

/-- A concrete successful upstream environment, used by witnesses. -/
def okImages : List ImageInfo :=
  [{ url := "https://img.example/one.png", width := some 1024, height := some 1024 }]

/-- An oracle for which every upstream call succeeds with one image. -/
def okOracle : Oracle := fun _ _ => Except.ok { images := okImages, seed := 7 }

/-- An oracle for which every upstream call rejects. -/
def failOracle : Oracle := fun _ _ => Except.error "Generation failed"

/-- An oracle for which every upstream call succeeds with zero images. -/
def emptyOracle : Oracle := fun _ _ => Except.ok { images := [], seed := 7 }

/-- An oracle failing exactly on the second issued call. -/
def mixedOracle : Oracle := fun i _ =>
  if i = 1 then Except.error "boom" else Except.ok { images := okImages, seed := 7 }

/-- Dispatch reduction for the generate_image case. -/
theorem callTool_gi (oracle : Oracle) (args : Option JObj) :
    callTool oracle "generate_image" args =
      Except.ok (wrapResult "Error generating image: " (generateImageBody oracle args)) := by
  unfold callTool
  rw [if_pos rfl]

/-- Dispatch reduction for the generate_image_batch case. -/
theorem callTool_gib (oracle : Oracle) (args : Option JObj) :
    callTool oracle "generate_image_batch" args =
      Except.ok (wrapResult "Error in batch generation: " (generateImageBatchBody oracle args)) := by
  unfold callTool
  rw [if_neg (by decide), if_pos rfl]

/-- The successful partition is the in-order selection of fulfilled
outcomes. -/
theorem partitionSettled_fst (rs : List (JVal × Except String SeedDreamResponse)) :
    (partitionSettled rs).1 =
      rs.filterMap (fun x =>
        match x.2 with
        | Except.ok v => some (x.1, v)
        | Except.error _ => none) := by
  induction rs with
  | nil => rfl
  | cons hd tl ih =>
    obtain ⟨p, r⟩ := hd
    cases r <;> simp [partitionSettled, ih]

/-- The failed partition is the in-order selection of rejected outcomes. -/
theorem partitionSettled_snd (rs : List (JVal × Except String SeedDreamResponse)) :
    (partitionSettled rs).2 =
      rs.filterMap (fun x =>
        match x.2 with
        | Except.error e => some (x.1, e)
        | Except.ok _ => none) := by
  induction rs with
  | nil => rfl
  | cons hd tl ih =>
    obtain ⟨p, r⟩ := hd
    cases r <;> simp [partitionSettled, ih]

/-- The two partitions together account for every settled outcome. -/
theorem partitionSettled_length (rs : List (JVal × Except String SeedDreamResponse)) :
    (partitionSettled rs).1.length + (partitionSettled rs).2.length = rs.length := by
  induction rs with
  | nil => rfl
  | cons hd tl ih =>
    obtain ⟨p, r⟩ := hd
    cases r <;> simp [partitionSettled] <;> omega

/-- The failed partition has exactly one entry per rejected outcome. -/
theorem partitionSettled_snd_length (rs : List (JVal × Except String SeedDreamResponse)) :
    (partitionSettled rs).2.length = rs.countP (fun x => exceptFailed x.2) := by
  induction rs with
  | nil => rfl
  | cons hd tl ih =>
    obtain ⟨p, r⟩ := hd
    cases r <;> simp [partitionSettled, exceptFailed, List.countP_cons, ih]

/-- When every settled outcome is a rejection, the successful partition is
empty. -/
theorem partitionSettled_fst_nil (rs : List (JVal × Except String SeedDreamResponse))
    (h : ∀ x ∈ rs, exceptFailed x.2 = true) : (partitionSettled rs).1 = [] := by
  induction rs with
  | nil => rfl
  | cons hd tl ih =>
    obtain ⟨p, r⟩ := hd
    cases r with
    | error e => simpa [partitionSettled] using ih (fun x hx => h x (List.mem_cons_of_mem _ hx))
    | ok v =>
      have := h (p, Except.ok v) (List.mem_cons_self _ _)
      simp [exceptFailed] at this

/-- The fan-out issues exactly one upstream call per prompt. -/
theorem settleBatch_length (oracle : Oracle) (i : Nat) (pls : List FalPayload) :
    (settleBatch oracle i pls).length = pls.length := by
  induction pls generalizing i with
  | nil => rfl
  | cons hd tl ih => simp [settleBatch, ih]

/-- Claim C1: the spec and the repository's own README state that a missing
credential must not crash the process and every generation call must return
an error-flagged result while tool listing keeps working.  The code at
src/index.ts lines 27-31 instead calls process.exit(1) whenever FAL_KEY is
unset (or empty), so the process terminates before serving any call.  This
theorem evaluates the startup check at the failing input, exhibiting the
exit. -/
theorem c1_falkey_missing_exits :
    startupCheck none = StartupOutcome.exited 1 ∧
      startupCheck (some "") = StartupOutcome.exited 1 := by
  exact ⟨rfl, rfl⟩

/-- Claim C2: for every call to generate_image or generate_image_batch,
with any argument payload and any upstream behaviour, the handler returns a
normal result (no unhandled fault crosses the boundary), and whenever the
body raised a fault, that fault was caught at the boundary (src/index.ts
lines 239-250 and 353-364) and converted into a result carrying the error
flag, whose text is the case's context text followed by the fault's
message. -/
theorem c2_no_unhandled_fault (oracle : Oracle) (name : String) (args : Option JObj)
    (h : name = "generate_image" ∨ name = "generate_image_batch") :
    ∃ res calls, callTool oracle name args = Except.ok (res, calls) ∧
      (name = "generate_image" →
        ∀ e, (generateImageBody oracle args).2 = Except.error e →
          res.isError = true ∧
          res.content = Content.errorText ("Error generating image: " ++ e.message)) ∧
      (name = "generate_image_batch" →
        ∀ e, (generateImageBatchBody oracle args).2 = Except.error e →
          res.isError = true ∧
          res.content = Content.errorText ("Error in batch generation: " ++ e.message)) := by
  rcases h with h | h <;> subst h
  · rcases hb : generateImageBody oracle args with ⟨calls, rex⟩
    cases rex with
    | ok c =>
      refine ⟨{ content := c, isError := false }, calls, ?_, ?_, ?_⟩
      · rw [callTool_gi, hb]
        rfl
      · intro _ e he
        simp at he
      · intro hn
        exact absurd hn (by decide)
    | error e0 =>
      refine ⟨{ content := Content.errorText ("Error generating image: " ++ e0.message)
              , isError := true }, calls, ?_, ?_, ?_⟩
      · rw [callTool_gi, hb]
        rfl
      · intro _ e he
        have he' : e0 = e := by simpa using he
        subst he'
        exact ⟨rfl, rfl⟩
      · intro hn
        exact absurd hn (by decide)
  · rcases hb : generateImageBatchBody oracle args with ⟨calls, rex⟩
    cases rex with
    | ok c =>
      refine ⟨{ content := c, isError := false }, calls, ?_, ?_, ?_⟩
      · rw [callTool_gib, hb]
        rfl
      · intro hn
        exact absurd hn (by decide)
      · intro _ e he
        simp at he
    | error e0 =>
      refine ⟨{ content := Content.errorText ("Error in batch generation: " ++ e0.message)
              , isError := true }, calls, ?_, ?_, ?_⟩
      · rw [callTool_gib, hb]
        rfl
      · intro hn
        exact absurd hn (by decide)
      · intro _ e he
        have he' : e0 = e := by simpa using he
        subst he'
        exact ⟨rfl, rfl⟩

/-- Witness for C2 at a concrete input: a generate_image call with no
arguments and a rejecting upstream returns a normal result, and any fault
its body raised was converted into an error-flagged result carrying the
prefixed message. -/
theorem c2_no_unhandled_fault_witness :
    ∃ res calls, callTool failOracle "generate_image" none = Except.ok (res, calls) ∧
      ("generate_image" = "generate_image" →
        ∀ e, (generateImageBody failOracle none).2 = Except.error e →
          res.isError = true ∧
          res.content = Content.errorText ("Error generating image: " ++ e.message)) ∧
      ("generate_image" = "generate_image_batch" →
        ∀ e, (generateImageBatchBody failOracle none).2 = Except.error e →
          res.isError = true ∧
          res.content = Content.errorText ("Error in batch generation: " ++ e.message)) :=
  c2_no_unhandled_fault failOracle "generate_image" none (Or.inl rfl)

/-- Claim C3: a generate_image_batch payload whose prompts value is
missing, not an array, an empty array, or an array of 6 or more elements is
rejected inside the handler (src/index.ts lines 261-267): the returned
result carries the error flag and one of the two validation messages, and
the upstream call list is empty. -/
theorem c3_batch_prompt_count_validated (oracle : Oracle) (o : JObj)
    (h : (∃ ps, getField o "prompts" = JVal.arr ps ∧ (ps.length = 0 ∨ 5 < ps.length)) ∨
      (∀ ps, getField o "prompts" ≠ JVal.arr ps)) :
    ∃ m, callTool oracle "generate_image_batch" (some o) =
        Except.ok ({ content := Content.errorText ("Error in batch generation: " ++ m),
                     isError := true }, []) ∧
      (m = "Prompts array is required and must not be empty" ∨
        m = "Maximum 5 prompts allowed per batch request") := by
  rw [callTool_gib]
  rcases h with ⟨ps, hp, hlen⟩ | hna
  · rcases hlen with h0 | h6
    · refine ⟨"Prompts array is required and must not be empty", ?_, Or.inl rfl⟩
      simp [generateImageBatchBody, hp, h0, wrapResult]
    · refine ⟨"Maximum 5 prompts allowed per batch request", ?_, Or.inr rfl⟩
      have h0 : ¬ ps.length = 0 := by omega
      simp [generateImageBatchBody, hp, h0, h6, wrapResult]
  · refine ⟨"Prompts array is required and must not be empty", ?_, Or.inl rfl⟩
    cases hv : getField o "prompts" with
    | arr ps => exact absurd hv (hna ps)
    | undefined => simp [generateImageBatchBody, hv, wrapResult]
    | null => simp [generateImageBatchBody, hv, wrapResult]
    | bool b => simp [generateImageBatchBody, hv, wrapResult]
    | num q => simp [generateImageBatchBody, hv, wrapResult]
    | str s => simp [generateImageBatchBody, hv, wrapResult]
    | obj f => simp [generateImageBatchBody, hv, wrapResult]

/-- Witness for C3 at a concrete input: an empty prompts array is rejected
with the error flag set and no upstream call. -/
theorem c3_batch_prompt_count_validated_witness :
    ∃ m, callTool okOracle "generate_image_batch" (some [("prompts", JVal.arr [])]) =
        Except.ok ({ content := Content.errorText ("Error in batch generation: " ++ m),
                     isError := true }, []) ∧
      (m = "Prompts array is required and must not be empty" ∨
        m = "Maximum 5 prompts allowed per batch request") :=
  c3_batch_prompt_count_validated okOracle [("prompts", JVal.arr [])]
    (Or.inl ⟨[], rfl, Or.inl rfl⟩)

/-- Reduction of the batch body on a payload that passes all three
validation checks. -/
theorem batchBody_valid (oracle : Oracle) (o : JObj) (ps : List JVal)
    (hp : getField o "prompts" = JVal.arr ps)
    (h1 : ps.length ≠ 0) (h5 : ¬ 5 < ps.length)
    (har : validRatioVal (jsDefault (getField o "aspect_ratio") (JVal.str "1:1")) = true) :
    generateImageBatchBody oracle (some o) =
      batchRun oracle (jsDefault (getField o "aspect_ratio") (JVal.str "1:1"))
        (jsDefault (getField o "guidance_scale") (JVal.num 2.5)) ps := by
  simp [generateImageBatchBody, hp, h1, h5, har]

/-- Claim C4: for a batch of N prompts that passes validation, with M
rejected upstream calls, the aggregate report carries exactly M failure
entries and N-M success entries, its header counts are exactly those
partition lengths together with the total N (summing to N), both partitions
follow the original prompt order (each is the in-order selection from the
settled outcome list), and the result does not carry the error flag. -/
theorem c4_batch_partition_counts (oracle : Oracle) (o : JObj) (ps : List JVal)
    (hp : getField o "prompts" = JVal.arr ps)
    (h1 : ps.length ≠ 0) (h5 : ¬ 5 < ps.length)
    (har : validRatioVal (jsDefault (getField o "aspect_ratio") (JVal.str "1:1")) = true) :
    ∃ s f,
      callTool oracle "generate_image_batch" (some o) =
        Except.ok
          ({ content :=
               Content.batchReport (jsDefault (getField o "aspect_ratio") (JVal.str "1:1"))
                 (jsDefault (getField o "guidance_scale") (JVal.num 2.5))
                 ps.length s.length f.length s f
           , isError := false },
           ps.map (batchPayload (jsDefault (getField o "aspect_ratio") (JVal.str "1:1"))
             (jsDefault (getField o "guidance_scale") (JVal.num 2.5)))) ∧
      f.length =
        (settleBatch oracle 0 (ps.map (batchPayload
            (jsDefault (getField o "aspect_ratio") (JVal.str "1:1"))
            (jsDefault (getField o "guidance_scale") (JVal.num 2.5))))).countP
          (fun x => exceptFailed x.2) ∧
      s.length + f.length = ps.length ∧
      s.length = ps.length - f.length ∧
      s = (settleBatch oracle 0 (ps.map (batchPayload
            (jsDefault (getField o "aspect_ratio") (JVal.str "1:1"))
            (jsDefault (getField o "guidance_scale") (JVal.num 2.5))))).filterMap
          (fun x =>
            match x.2 with
            | Except.ok v => some (x.1, v)
            | Except.error _ => none) ∧
      f = (settleBatch oracle 0 (ps.map (batchPayload
            (jsDefault (getField o "aspect_ratio") (JVal.str "1:1"))
            (jsDefault (getField o "guidance_scale") (JVal.num 2.5))))).filterMap
          (fun x =>
            match x.2 with
            | Except.error e => some (x.1, e)
            | Except.ok _ => none) := by
  refine ⟨(partitionSettled (settleBatch oracle 0 (ps.map (batchPayload
      (jsDefault (getField o "aspect_ratio") (JVal.str "1:1"))
      (jsDefault (getField o "guidance_scale") (JVal.num 2.5)))))).1,
    (partitionSettled (settleBatch oracle 0 (ps.map (batchPayload
      (jsDefault (getField o "aspect_ratio") (JVal.str "1:1"))
      (jsDefault (getField o "guidance_scale") (JVal.num 2.5)))))).2,
    ?_, ?_, ?_, ?_, ?_, ?_⟩
  · rw [callTool_gib, batchBody_valid oracle o ps hp h1 h5 har]
    rfl
  · exact partitionSettled_snd_length _
  · rw [partitionSettled_length, settleBatch_length, List.length_map]
  · have hsum := partitionSettled_length (settleBatch oracle 0 (ps.map (batchPayload
      (jsDefault (getField o "aspect_ratio") (JVal.str "1:1"))
      (jsDefault (getField o "guidance_scale") (JVal.num 2.5)))))
    rw [settleBatch_length, List.length_map] at hsum
    omega
  · exact partitionSettled_fst _
  · exact partitionSettled_snd _

/-- Witness for C4 at a concrete input: three prompts where exactly the
second upstream call fails. -/
theorem c4_batch_partition_counts_witness :
    ∃ s f,
      callTool mixedOracle "generate_image_batch"
          (some [("prompts", JVal.arr [JVal.str "a", JVal.str "b", JVal.str "c"])]) =
        Except.ok
          ({ content :=
               Content.batchReport (jsDefault (getField
                   [("prompts", JVal.arr [JVal.str "a", JVal.str "b", JVal.str "c"])]
                   "aspect_ratio") (JVal.str "1:1"))
                 (jsDefault (getField
                   [("prompts", JVal.arr [JVal.str "a", JVal.str "b", JVal.str "c"])]
                   "guidance_scale") (JVal.num 2.5))
                 [JVal.str "a", JVal.str "b", JVal.str "c"].length s.length f.length s f
           , isError := false },
           [JVal.str "a", JVal.str "b", JVal.str "c"].map (batchPayload
             (jsDefault (getField
               [("prompts", JVal.arr [JVal.str "a", JVal.str "b", JVal.str "c"])]
               "aspect_ratio") (JVal.str "1:1"))
             (jsDefault (getField
               [("prompts", JVal.arr [JVal.str "a", JVal.str "b", JVal.str "c"])]
               "guidance_scale") (JVal.num 2.5)))) ∧
      f.length =
        (settleBatch mixedOracle 0 ([JVal.str "a", JVal.str "b", JVal.str "c"].map (batchPayload
            (jsDefault (getField
              [("prompts", JVal.arr [JVal.str "a", JVal.str "b", JVal.str "c"])]
              "aspect_ratio") (JVal.str "1:1"))
            (jsDefault (getField
              [("prompts", JVal.arr [JVal.str "a", JVal.str "b", JVal.str "c"])]
              "guidance_scale") (JVal.num 2.5))))).countP
          (fun x => exceptFailed x.2) ∧
      s.length + f.length = [JVal.str "a", JVal.str "b", JVal.str "c"].length ∧
      s.length = [JVal.str "a", JVal.str "b", JVal.str "c"].length - f.length ∧
      s = (settleBatch mixedOracle 0 ([JVal.str "a", JVal.str "b", JVal.str "c"].map (batchPayload
            (jsDefault (getField
              [("prompts", JVal.arr [JVal.str "a", JVal.str "b", JVal.str "c"])]
              "aspect_ratio") (JVal.str "1:1"))
            (jsDefault (getField
              [("prompts", JVal.arr [JVal.str "a", JVal.str "b", JVal.str "c"])]
              "guidance_scale") (JVal.num 2.5))))).filterMap
          (fun x =>
            match x.2 with
            | Except.ok v => some (x.1, v)
            | Except.error _ => none) ∧
      f = (settleBatch mixedOracle 0 ([JVal.str "a", JVal.str "b", JVal.str "c"].map (batchPayload
            (jsDefault (getField
              [("prompts", JVal.arr [JVal.str "a", JVal.str "b", JVal.str "c"])]
              "aspect_ratio") (JVal.str "1:1"))
            (jsDefault (getField
              [("prompts", JVal.arr [JVal.str "a", JVal.str "b", JVal.str "c"])]
              "guidance_scale") (JVal.num 2.5))))).filterMap
          (fun x =>
            match x.2 with
            | Except.error e => some (x.1, e)
            | Except.ok _ => none) :=
  c4_batch_partition_counts mixedOracle
    [("prompts", JVal.arr [JVal.str "a", JVal.str "b", JVal.str "c"])]
    [JVal.str "a", JVal.str "b", JVal.str "c"] rfl (by decide) (by decide) rfl

/-- When every upstream call rejects, every settled outcome is a
rejection. -/
theorem settleBatch_all_failed (oracle : Oracle)
    (h : ∀ i pl, exceptFailed (oracle i pl) = true) :
    ∀ i pls, ∀ x ∈ settleBatch oracle i pls, exceptFailed x.2 = true := by
  intro i pls
  induction pls generalizing i with
  | nil =>
    intro x hx
    simp [settleBatch] at hx
  | cons hd tl ih =>
    intro x hx
    rcases (by simpa [settleBatch] using hx :
        x = (hd.prompt, oracle i hd) ∨ x ∈ settleBatch oracle (i + 1) tl) with h1 | h2
    · rw [h1]
      exact h i hd
    · exact ih (i + 1) x h2

/-- Claim C10: a generate_image_batch call that passes input validation
never carries the error flag, whatever the upstream outcomes are; in
particular when every upstream call fails, the result is still a normal
aggregate report with zero successes and N failures, which a caller
inspecting the boolean error indicator sees as success. -/
theorem c10_batch_never_error_flag (oracle : Oracle) (o : JObj) (ps : List JVal)
    (hp : getField o "prompts" = JVal.arr ps)
    (h1 : ps.length ≠ 0) (h5 : ¬ 5 < ps.length)
    (har : validRatioVal (jsDefault (getField o "aspect_ratio") (JVal.str "1:1")) = true) :
    ∃ s f,
      callTool oracle "generate_image_batch" (some o) =
        Except.ok
          ({ content :=
               Content.batchReport (jsDefault (getField o "aspect_ratio") (JVal.str "1:1"))
                 (jsDefault (getField o "guidance_scale") (JVal.num 2.5))
                 ps.length s.length f.length s f
           , isError := false },
           ps.map (batchPayload (jsDefault (getField o "aspect_ratio") (JVal.str "1:1"))
             (jsDefault (getField o "guidance_scale") (JVal.num 2.5)))) ∧
      ((∀ i pl, exceptFailed (oracle i pl) = true) →
        s = [] ∧ f.length = ps.length) := by
  refine ⟨(partitionSettled (settleBatch oracle 0 (ps.map (batchPayload
      (jsDefault (getField o "aspect_ratio") (JVal.str "1:1"))
      (jsDefault (getField o "guidance_scale") (JVal.num 2.5)))))).1,
    (partitionSettled (settleBatch oracle 0 (ps.map (batchPayload
      (jsDefault (getField o "aspect_ratio") (JVal.str "1:1"))
      (jsDefault (getField o "guidance_scale") (JVal.num 2.5)))))).2,
    ?_, ?_⟩
  · rw [callTool_gib, batchBody_valid oracle o ps hp h1 h5 har]
    rfl
  · intro hall
    have hnil := partitionSettled_fst_nil
      (settleBatch oracle 0 (ps.map (batchPayload
        (jsDefault (getField o "aspect_ratio") (JVal.str "1:1"))
        (jsDefault (getField o "guidance_scale") (JVal.num 2.5)))))
      (settleBatch_all_failed oracle hall 0 _)
    refine ⟨hnil, ?_⟩
    have hsum := partitionSettled_length (settleBatch oracle 0 (ps.map (batchPayload
      (jsDefault (getField o "aspect_ratio") (JVal.str "1:1"))
      (jsDefault (getField o "guidance_scale") (JVal.num 2.5)))))
    rw [settleBatch_length, List.length_map, hnil] at hsum
    simpa using hsum

/-- Witness for C10 at a concrete input: two prompts, every upstream call
failing, the result carries no error flag. -/
theorem c10_batch_never_error_flag_witness :
    ∃ s f,
      callTool failOracle "generate_image_batch"
          (some [("prompts", JVal.arr [JVal.str "a", JVal.str "b"])]) =
        Except.ok
          ({ content :=
               Content.batchReport
                 (jsDefault (getField [("prompts", JVal.arr [JVal.str "a", JVal.str "b"])]
                   "aspect_ratio") (JVal.str "1:1"))
                 (jsDefault (getField [("prompts", JVal.arr [JVal.str "a", JVal.str "b"])]
                   "guidance_scale") (JVal.num 2.5))
                 [JVal.str "a", JVal.str "b"].length s.length f.length s f
           , isError := false },
           [JVal.str "a", JVal.str "b"].map (batchPayload
             (jsDefault (getField [("prompts", JVal.arr [JVal.str "a", JVal.str "b"])]
               "aspect_ratio") (JVal.str "1:1"))
             (jsDefault (getField [("prompts", JVal.arr [JVal.str "a", JVal.str "b"])]
               "guidance_scale") (JVal.num 2.5)))) ∧
      ((∀ i pl, exceptFailed (failOracle i pl) = true) →
        s = [] ∧ f.length = [JVal.str "a", JVal.str "b"].length) :=
  c10_batch_never_error_flag failOracle [("prompts", JVal.arr [JVal.str "a", JVal.str "b"])]
    [JVal.str "a", JVal.str "b"] rfl (by decide) (by decide) rfl

/-- Reduction of the generate_image body on arguments that pass the prompt
and aspect-ratio checks. -/
theorem singleBody_valid (oracle : Oracle) (o : JObj) (s : String)
    (hp : getField o "prompt" = JVal.str s) (hs : s ≠ "")
    (har : (truthy (getField o "aspect_ratio")
      && !validRatioVal (getField o "aspect_ratio")) = false) :
    generateImageBody oracle (some o) =
      match oracle 0 (mkPayload o s) with
      | Except.error e => ([mkPayload o s], Except.error ⟨e⟩)
      | Except.ok resp =>
        if resp.images.length = 0 then
          ([mkPayload o s], Except.error ⟨"No images were generated"⟩)
        else
          ([mkPayload o s],
           Except.ok (Content.singleReport s (mkPayload o s).arv
             (mkPayload o s).gsv resp.seed resp.images)) := by
  simp [generateImageBody, hp, hs, har]


/-- Reduction of the generate_image body when the upstream call rejects. -/
theorem singleBody_err (oracle : Oracle) (o : JObj) (s e : String)
    (hp : getField o "prompt" = JVal.str s) (hs : s ≠ "")
    (har : (truthy (getField o "aspect_ratio")
      && !validRatioVal (getField o "aspect_ratio")) = false)
    (hor : oracle 0 (mkPayload o s) = Except.error e) :
    generateImageBody oracle (some o) = ([mkPayload o s], Except.error ⟨e⟩) := by
  rw [singleBody_valid oracle o s hp hs har, hor]

/-- Reduction of the generate_image body when the upstream call succeeds
with zero images. -/
theorem singleBody_ok_zero (oracle : Oracle) (o : JObj) (s : String)
    (resp : SeedDreamResponse)
    (hp : getField o "prompt" = JVal.str s) (hs : s ≠ "")
    (har : (truthy (getField o "aspect_ratio")
      && !validRatioVal (getField o "aspect_ratio")) = false)
    (hor : oracle 0 (mkPayload o s) = Except.ok resp)
    (himg : resp.images.length = 0) :
    generateImageBody oracle (some o) =
      ([mkPayload o s], Except.error ⟨"No images were generated"⟩) := by
  rw [singleBody_valid oracle o s hp hs har, hor]
  simp [himg]

/-- Reduction of the generate_image body when the upstream call succeeds
with at least one image. -/
theorem singleBody_ok_pos (oracle : Oracle) (o : JObj) (s : String)
    (resp : SeedDreamResponse)
    (hp : getField o "prompt" = JVal.str s) (hs : s ≠ "")
    (har : (truthy (getField o "aspect_ratio")
      && !validRatioVal (getField o "aspect_ratio")) = false)
    (hor : oracle 0 (mkPayload o s) = Except.ok resp)
    (himg : resp.images.length ≠ 0) :
    generateImageBody oracle (some o) =
      ([mkPayload o s],
       Except.ok (Content.singleReport s (mkPayload o s).arv
         (mkPayload o s).gsv resp.seed resp.images)) := by
  rw [singleBody_valid oracle o s hp hs har, hor]
  simp [himg]

/-- Counterexample to claim C5 as stated: the empty string is a ratio token
outside the eight-element set, yet a generate_image call supplying it does
not fail with a ValidationError.  Because the empty string is falsy, the
check at src/index.ts line 179 is skipped, the token silently defaults to
1:1, an upstream call is made, and the call succeeds. -/
theorem c5_empty_ratio_not_rejected :
    VALID_ASPECT_RATIOS.contains "" = false ∧
    callTool okOracle "generate_image"
        (some [("prompt", JVal.str "p"), ("aspect_ratio", JVal.str "")]) =
      Except.ok
        ({ content := Content.singleReport "p" (JVal.str "1:1") (JVal.num 2.5) 7 okImages
         , isError := false },
         [{ prompt := JVal.str "p", arv := JVal.str "1:1", gsv := JVal.num 2.5,
            numImages := JVal.num 1, seed := none }]) := by
  refine ⟨by decide, ?_⟩
  rw [callTool_gi]
  rfl

/-- Claim C5 as amended: the validation message enumerates the full valid
set; every token in the set is used unchanged in the upstream payload by
both operations; a token outside the set is rejected with that message
before any network call by generate_image_batch always, and by
generate_image only when the token is non-empty (an empty-string token is
treated as absent there and replaced by the default 1:1). -/
theorem c5_ratio_validation_amended :
    (invalidRatioMsg =
      "Invalid aspect ratio. Must be one of: 1:1, 3:4, 4:3, 16:9, 9:16, 2:3, 3:2, 21:9") ∧
    (∀ (oracle : Oracle) (o : JObj) (s t : String),
      getField o "prompt" = JVal.str s → s ≠ "" →
      getField o "aspect_ratio" = JVal.str t → t ≠ "" →
      VALID_ASPECT_RATIOS.contains t = false →
      callTool oracle "generate_image" (some o) =
        Except.ok ({ content := Content.errorText ("Error generating image: " ++ invalidRatioMsg), isError := true }, [])) ∧
    (∀ (oracle : Oracle) (o : JObj) (ps : List JVal) (t : String),
      getField o "prompts" = JVal.arr ps → ps.length ≠ 0 → ¬ 5 < ps.length →
      getField o "aspect_ratio" = JVal.str t →
      VALID_ASPECT_RATIOS.contains t = false →
      callTool oracle "generate_image_batch" (some o) =
        Except.ok ({ content := Content.errorText ("Error in batch generation: " ++ invalidRatioMsg), isError := true }, [])) ∧
    (∀ (oracle : Oracle) (o : JObj) (s t : String),
      getField o "prompt" = JVal.str s → s ≠ "" →
      getField o "aspect_ratio" = JVal.str t →
      VALID_ASPECT_RATIOS.contains t = true →
      ∃ r, callTool oracle "generate_image" (some o) = Except.ok (r, [mkPayload o s]) ∧
        (mkPayload o s).arv = JVal.str t) ∧
    (∀ (oracle : Oracle) (o : JObj) (ps : List JVal) (t : String),
      getField o "prompts" = JVal.arr ps → ps.length ≠ 0 → ¬ 5 < ps.length →
      getField o "aspect_ratio" = JVal.str t →
      VALID_ASPECT_RATIOS.contains t = true →
      ∃ r, callTool oracle "generate_image_batch" (some o) =
        Except.ok (r, ps.map (batchPayload (JVal.str t)
          (jsDefault (getField o "guidance_scale") (JVal.num 2.5))))) := by
  refine ⟨rfl, ?_, ?_, ?_, ?_⟩
  · intro oracle o s t hp hs hat ht hc
    have hm : t ∉ VALID_ASPECT_RATIOS := by simpa using hc
    rw [callTool_gi]
    simp [generateImageBody, hp, hs, hat, truthy, validRatioVal, ht, hm, wrapResult]
  · intro oracle o ps t hp h1 h5 hat hc
    have hm : t ∉ VALID_ASPECT_RATIOS := by simpa using hc
    rw [callTool_gib]
    simp [generateImageBatchBody, hp, h1, h5, hat, jsDefault, validRatioVal, hm, wrapResult]
  · intro oracle o s t hp hs hat hc
    have hm : t ∈ VALID_ASPECT_RATIOS := by simpa using hc
    have ht : t ≠ "" := by
      intro h
      subst h
      exact absurd hc (by decide)
    have har : (truthy (getField o "aspect_ratio")
        && !validRatioVal (getField o "aspect_ratio")) = false := by
      simp [hat, truthy, validRatioVal, ht, hm]
    have harv : (mkPayload o s).arv = JVal.str t := by
      simp [mkPayload, jsOr, hat, truthy, ht]
    rw [callTool_gi]
    cases hor : oracle 0 (mkPayload o s) with
    | error e =>
      rw [singleBody_err oracle o s e hp hs har hor]
      exact ⟨_, rfl, harv⟩
    | ok resp =>
      by_cases himg : resp.images.length = 0
      · rw [singleBody_ok_zero oracle o s resp hp hs har hor himg]
        exact ⟨_, rfl, harv⟩
      · rw [singleBody_ok_pos oracle o s resp hp hs har hor himg]
        exact ⟨_, rfl, harv⟩
  · intro oracle o ps t hp h1 h5 hat hc
    have har : validRatioVal (jsDefault (getField o "aspect_ratio") (JVal.str "1:1")) = true := by
      rw [hat]
      simpa [jsDefault, validRatioVal] using hc
    refine ⟨(wrapResult "Error in batch generation: "
      (batchRun oracle (jsDefault (getField o "aspect_ratio") (JVal.str "1:1"))
        (jsDefault (getField o "guidance_scale") (JVal.num 2.5)) ps)).1, ?_⟩
    rw [callTool_gib, batchBody_valid oracle o ps hp h1 h5 har, hat]
    rfl

/-- Witness for the amended C5 at a concrete input: the out-of-set token
7:5 is rejected by generate_image with the enumerating message and no
upstream call. -/
theorem c5_ratio_validation_amended_witness :
    callTool okOracle "generate_image"
        (some [("prompt", JVal.str "p"), ("aspect_ratio", JVal.str "7:5")]) =
      Except.ok ({ content := Content.errorText ("Error generating image: " ++ invalidRatioMsg), isError := true }, []) :=
  c5_ratio_validation_amended.2.1 okOracle
    [("prompt", JVal.str "p"), ("aspect_ratio", JVal.str "7:5")] "p" "7:5"
    rfl (by decide) rfl (by decide) (by decide)

/-- Mapping the prompt field over the fan-out payloads recovers the
original prompt list: every element is forwarded upstream unchanged. -/
theorem batchPayload_prompts (ar gs : JVal) (ps : List JVal) :
    (ps.map (batchPayload ar gs)).map (fun pl => pl.prompt) = ps := by
  induction ps with
  | nil => rfl
  | cons hd tl ih => simp [batchPayload, ih]

/-- Counterexample to claim C6 as stated: a generate_image_batch call whose
single prompt element is the empty string is not rejected; the element is
forwarded upstream (one upstream call with the empty prompt is recorded)
and the call completes without the error flag. -/
theorem c6_batch_empty_prompt_forwarded :
    callTool okOracle "generate_image_batch" (some [("prompts", JVal.arr [JVal.str ""])]) =
      Except.ok
        ({ content := Content.batchReport (JVal.str "1:1") (JVal.num 2.5) 1 1 0
             [(JVal.str "", { images := okImages, seed := 7 })] []
         , isError := false },
         [{ prompt := JVal.str "", arv := JVal.str "1:1", gsv := JVal.num 2.5,
            numImages := JVal.num 1, seed := none }]) := by
  rw [callTool_gib]
  rfl

/-- Claim C6 as amended: generate_image rejects a missing, empty or
non-string prompt with a ValidationError before any upstream call; but
generate_image_batch does not validate individual prompt elements: in a
validated batch every element, whatever its value, produces exactly one
upstream call carrying that element as the prompt. -/
theorem c6_prompt_validation_amended :
    (∀ (oracle : Oracle) (args : Option JObj),
      (∀ s : String, getField (args.getD []) "prompt" = JVal.str s → s = "") →
      callTool oracle "generate_image" args =
        Except.ok ({ content := Content.errorText "Error generating image: Prompt is required and must be a string", isError := true }, [])) ∧
    (∀ (oracle : Oracle) (o : JObj) (ps : List JVal),
      getField o "prompts" = JVal.arr ps → ps.length ≠ 0 → ¬ 5 < ps.length →
      validRatioVal (jsDefault (getField o "aspect_ratio") (JVal.str "1:1")) = true →
      ∃ r, callTool oracle "generate_image_batch" (some o) =
          Except.ok (r, ps.map (batchPayload
            (jsDefault (getField o "aspect_ratio") (JVal.str "1:1"))
            (jsDefault (getField o "guidance_scale") (JVal.num 2.5)))) ∧
        (ps.map (batchPayload
            (jsDefault (getField o "aspect_ratio") (JVal.str "1:1"))
            (jsDefault (getField o "guidance_scale") (JVal.num 2.5)))).map
          (fun pl => pl.prompt) = ps) := by
  constructor
  · intro oracle args h
    rw [callTool_gi]
    cases hv : getField (args.getD []) "prompt" with
    | str s =>
      have hse := h s hv
      subst hse
      simp [generateImageBody, hv, wrapResult]
    | undefined => simp [generateImageBody, hv, wrapResult]
    | null => simp [generateImageBody, hv, wrapResult]
    | bool b => simp [generateImageBody, hv, wrapResult]
    | num q => simp [generateImageBody, hv, wrapResult]
    | arr xs => simp [generateImageBody, hv, wrapResult]
    | obj f => simp [generateImageBody, hv, wrapResult]
  · intro oracle o ps hp h1 h5 har
    refine ⟨(wrapResult "Error in batch generation: "
      (batchRun oracle (jsDefault (getField o "aspect_ratio") (JVal.str "1:1"))
        (jsDefault (getField o "guidance_scale") (JVal.num 2.5)) ps)).1, ?_, ?_⟩
    · rw [callTool_gib, batchBody_valid oracle o ps hp h1 h5 har]
      rfl
    · exact batchPayload_prompts _ _ ps

/-- Witness for the amended C6 at a concrete input: a numeric prompt is
rejected by generate_image with the error flag set and no upstream call. -/
theorem c6_prompt_validation_amended_witness :
    callTool okOracle "generate_image" (some [("prompt", JVal.num 5)]) =
      Except.ok ({ content := Content.errorText "Error generating image: Prompt is required and must be a string", isError := true }, []) :=
  c6_prompt_validation_amended.1 okOracle (some [("prompt", JVal.num 5)])
    (fun s h => by simp [getField] at h)

/-- Counterexample to claim C7 as stated: a guidance scale of 100 is
outside the documented range 1.0-20.0, yet the call is not rejected: one
upstream call is made carrying guidance 100 (and an out-of-range image
count of 50 and a negative seed), and the call succeeds.  The handler at
src/index.ts lines 184-193 performs no range validation. -/
theorem c7_out_of_range_not_rejected :
    ¬ ((100 : Rat) ≤ 20) ∧ ¬ ((50 : Rat) ≤ 4) ∧ ¬ ((0 : Rat) ≤ -5) ∧
    callTool okOracle "generate_image"
        (some [("prompt", JVal.str "p"), ("guidance_scale", JVal.num 100),
               ("num_images", JVal.num 50), ("seed", JVal.num (-5))]) =
      Except.ok
        ({ content := Content.singleReport "p" (JVal.str "1:1") (JVal.num 100) 7 okImages
         , isError := false },
         [{ prompt := JVal.str "p", arv := JVal.str "1:1", gsv := JVal.num 100,
            numImages := JVal.num 50, seed := some (JVal.num (-5)) }]) := by
  refine ⟨by norm_num, by norm_num, by norm_num, ?_⟩
  rw [callTool_gi]
  rfl

/-- Claim C7 as amended: the generate_image handler performs no range
validation of its numeric fields.  Any non-zero guidance scale and image
count and any provided seed, in range or not, are forwarded unchanged in
the single upstream payload, and no ValidationError is raised (a zero
value of guidance scale or image count is silently replaced by its default
because zero is falsy). -/
theorem c7_numeric_fields_forwarded (oracle : Oracle) (o : JObj) (s : String)
    (g n sd : Rat)
    (hp : getField o "prompt" = JVal.str s) (hs : s ≠ "")
    (har : (truthy (getField o "aspect_ratio")
      && !validRatioVal (getField o "aspect_ratio")) = false)
    (hg : getField o "guidance_scale" = JVal.num g) (hg0 : g ≠ 0)
    (hn : getField o "num_images" = JVal.num n) (hn0 : n ≠ 0)
    (hsd : getField o "seed" = JVal.num sd) :
    ∃ r, callTool oracle "generate_image" (some o) = Except.ok (r, [mkPayload o s]) ∧
      (mkPayload o s).gsv = JVal.num g ∧
      (mkPayload o s).numImages = JVal.num n ∧
      (mkPayload o s).seed = some (JVal.num sd) := by
  have hgs : (mkPayload o s).gsv = JVal.num g := by
    simp [mkPayload, jsOr, truthy, hg, hg0]
  have hni : (mkPayload o s).numImages = JVal.num n := by
    simp [mkPayload, jsOr, truthy, hn, hn0]
  have hsde : (mkPayload o s).seed = some (JVal.num sd) := by
    simp [mkPayload, hsd]
  rw [callTool_gi]
  cases hor : oracle 0 (mkPayload o s) with
  | error e =>
    rw [singleBody_err oracle o s e hp hs har hor]
    exact ⟨_, rfl, hgs, hni, hsde⟩
  | ok resp =>
    by_cases himg : resp.images.length = 0
    · rw [singleBody_ok_zero oracle o s resp hp hs har hor himg]
      exact ⟨_, rfl, hgs, hni, hsde⟩
    · rw [singleBody_ok_pos oracle o s resp hp hs har hor himg]
      exact ⟨_, rfl, hgs, hni, hsde⟩

/-- Witness for the amended C7 at a concrete input: out-of-range numeric
values are forwarded unchanged in the upstream payload. -/
theorem c7_numeric_fields_forwarded_witness :
    ∃ r, callTool okOracle "generate_image"
        (some [("prompt", JVal.str "p"), ("guidance_scale", JVal.num 100),
               ("num_images", JVal.num 50), ("seed", JVal.num (-5))]) =
      Except.ok (r, [mkPayload [("prompt", JVal.str "p"), ("guidance_scale", JVal.num 100),
               ("num_images", JVal.num 50), ("seed", JVal.num (-5))] "p"]) ∧
      (mkPayload [("prompt", JVal.str "p"), ("guidance_scale", JVal.num 100),
        ("num_images", JVal.num 50), ("seed", JVal.num (-5))] "p").gsv = JVal.num 100 ∧
      (mkPayload [("prompt", JVal.str "p"), ("guidance_scale", JVal.num 100),
        ("num_images", JVal.num 50), ("seed", JVal.num (-5))] "p").numImages = JVal.num 50 ∧
      (mkPayload [("prompt", JVal.str "p"), ("guidance_scale", JVal.num 100),
        ("num_images", JVal.num 50), ("seed", JVal.num (-5))] "p").seed =
        some (JVal.num (-5)) :=
  c7_numeric_fields_forwarded okOracle
    [("prompt", JVal.str "p"), ("guidance_scale", JVal.num 100),
     ("num_images", JVal.num 50), ("seed", JVal.num (-5))] "p" 100 50 (-5)
    rfl (by decide) rfl rfl (by norm_num) rfl (by norm_num) rfl

/-- Claim C8: when the upstream call nominally succeeds but returns zero
images, the generate_image handler throws "No images were generated"
(src/index.ts lines 210-212), so the whole call is reported as an error
result with the error flag set, not as a success with no images. -/
theorem c8_zero_images_is_error (oracle : Oracle) (o : JObj) (s : String)
    (resp : SeedDreamResponse)
    (hp : getField o "prompt" = JVal.str s) (hs : s ≠ "")
    (har : (truthy (getField o "aspect_ratio")
      && !validRatioVal (getField o "aspect_ratio")) = false)
    (hor : oracle 0 (mkPayload o s) = Except.ok resp)
    (himg : resp.images = []) :
    callTool oracle "generate_image" (some o) =
      Except.ok ({ content := Content.errorText "Error generating image: No images were generated", isError := true }, [mkPayload o s]) := by
  rw [callTool_gi, singleBody_ok_zero oracle o s resp hp hs har hor (by simp [himg])]
  rfl

/-- Witness for C8 at a concrete input: an upstream success carrying zero
images becomes an error-flagged result. -/
theorem c8_zero_images_is_error_witness :
    callTool emptyOracle "generate_image" (some [("prompt", JVal.str "p")]) =
      Except.ok ({ content := Content.errorText "Error generating image: No images were generated", isError := true }, [mkPayload [("prompt", JVal.str "p")] "p"]) :=
  c8_zero_images_is_error emptyOracle [("prompt", JVal.str "p")] "p"
    { images := [], seed := 7 } rfl (by decide) rfl rfl rfl

/-- Claim C9 (spec-modelled): the filename generator lower-cases the
prompt, strips characters outside the allowed class, collapses whitespace
runs to single underscores, truncates to 50 characters, and appends seed,
index, timestamp and extension; on ("A Cute! Robot", 1, 42) it yields
a_cute_robot_42_1_<timestamp>.png for every timestamp text, and the
sanitized stem never exceeds 50 characters. -/
theorem c9_makeFilename_example :
    (∀ ts : String, makeFilename "A Cute! Robot" 1 42 ts =
      "a_cute_robot_42_1_" ++ ts ++ ".png") ∧
    (∀ p : String, (sanitizePrompt p).length ≤ 50) := by
  constructor
  · intro ts
    rfl
  · intro p
    simp [sanitizePrompt, String.length]

end Seedream
